import Mathlib

/-!
Verification development for the spotify-radio-creator service (src/app.py).

The service is a Flask app with three trigger endpoints that build an ad-hoc
radio playlist from the currently playing track and start playback:

  * `POST /trigger`            (keyword-search variant, `trigger`)
  * `POST /trigger-openai`     (LLM variant, `trigger_openai`)
  * `POST /trigger-reccobeats` (recommendation-API variant, `trigger_reccobeats`)

We shallowly embed each handler as a pure Lean function.  All external
collaborators (the Spotify client, the OpenAI chat call, the ReccoBeats HTTP
call, the `json.loads` parser, and the random number generator) are modelled
as explicit inputs collected in a per-handler environment structure.  Each
handler returns the HTTP result it produces (`status` plus the `jsonify`-ed
body) together with the ordered trace of external calls it performed
(artist lookup, searches, the upstream API call, and `start_playback`).
-/

namespace SpotifyRadio

/-- Model of a parsed JSON value (what `json.loads` / `jsonify` manipulate).
Objects model Python dicts, whose keys are unique. -/
inductive Json where
  | null : Json
  | bool : Bool → Json
  | num : Int → Json
  | str : String → Json
  | arr : List Json → Json
  | obj : List (String × Json) → Json

/-- Look a key up in a JSON object body; `none` for non-objects.  Used in
theorem statements to extract a field of a handler response body. -/
def Json.field : Json → String → Option Json
  | .obj fields, k => fields.lookup k
  | _, _ => none

/-- Length of a JSON array (0 for non-arrays).  Used in theorem statements
about playlist lengths. -/
def Json.arrLen : Json → Nat
  | .arr l => l.length
  | _ => 0

/-- Python type name of the modelled value, as it appears in runtime error
messages such as `AttributeError`. -/
def pyTypeName : Json → String
  | .null => "NoneType"
  | .bool _ => "bool"
  | .num _ => "int"
  | .str _ => "str"
  | .arr _ => "list"
  | .obj _ => "dict"

/-- Message of the `AttributeError` raised by calling `.get` on a value that
is not a dict (Python renders it with the type name quoted; we keep the words
without the quote characters). -/
def attrGetError (j : Json) : String :=
  pyTypeName j ++ " object has no attribute get"

/-- Python `str()` of a JSON value as interpolated by an f-string.  Scalars
are rendered faithfully; containers are abbreviated (the handlers only feed
the result to an opaque search collaborator, so its exact text is unused). -/
def pyStr : Json → String
  | .str s => s
  | .num n => toString n
  | .bool true => "True"
  | .bool false => "False"
  | .null => "None"
  | .arr _ => "[...]"
  | .obj _ => "{...}"

/-- Python `fields.get(k, d)` on a dict that is known to be a dict. -/
def lookupD (fields : List (String × Json)) (k : String) (d : Json) : Json :=
  (fields.lookup k).getD d

/-- An artist object as returned by the Spotify client (`id`, `name`). -/
structure Artist where
  id : String
  name : String

/-- A track object as returned by the Spotify client. -/
structure Track where
  id : String
  name : String
  uri : String
  artists : List Artist

/-- Result of `sp.current_playback()`: the call may return a falsy value,
an object without an `item` field, or an object with a currently playing
track. -/
inductive PlaybackState where
  | noPlayback : PlaybackState
  | noItem : PlaybackState
  | playing : Track → PlaybackState

/-- Observable external calls a handler makes after fetching the playback
state. -/
inductive Effect where
  | artistLookup : String → Effect
  | search : String → Nat → Nat → Effect
  | openaiCall : Effect
  | reccoCall : String → Effect
  | startPlayback : List Json → Effect

/-- Whether an effect is a `start_playback` invocation. -/
def isStart : Effect → Bool
  | .startPlayback _ => true
  | _ => false

/-- An HTTP response: status code plus `jsonify`-ed body. -/
structure HttpResult where
  status : Nat
  body : Json

/-- Body `{"error": msg}` produced by `jsonify({"error": ...})`. -/
def errBody (msg : String) : Json := .obj [("error", .str msg)]

/-- Model of Python `random.shuffle` (Fisher-Yates): the randomness is a list
of numbers, each reduced modulo the current length to pick the element moved
to the next output position.  Any permutation is reachable for a suitable
randomness list, and the output is a permutation of the input for every
randomness list. -/
def shuffleGo {α : Type} : List Nat → List α → List α
  | [], xs => xs
  | _ :: _, [] => []
  | k :: r, x :: xs =>
    (x :: xs).getD (k % (x :: xs).length) x ::
      shuffleGo r ((x :: xs).eraseIdx (k % (x :: xs).length))

/-- `random.shuffle` applied to a list, with explicit randomness `r`. -/
def shuffle {α : Type} (r : List Nat) (xs : List α) : List α := shuffleGo r xs

/-- Query derivation of the keyword variant (app.py lines 106-109): if the
artist has genres, `random.choice(artist_genres)` picks one (modelled as
indexing by the randomness modulo the length); otherwise the query is the
name of the primary artist. -/
def deriveQuery (artist_genres : List String) (r : Nat) (artistName : String) :
    String :=
  match artist_genres with
  | [] => artistName
  | g :: gs => (g :: gs).getD (r % (g :: gs).length) g

/-- Offset selection of the keyword variant (app.py lines 114-116):
`max_offset = max(0, total_results - 20)` (Nat subtraction models the
`max(0, ...)`), then `random.randint(0, max_offset)` if `max_offset > 0`
else `0`.  `randint` is inclusive on both ends, modelled as the randomness
modulo `max_offset + 1`. -/
def chooseOffset (total_results offsetRand : Nat) : Nat :=
  if total_results - 20 > 0 then offsetRand % (total_results - 20 + 1) else 0

/-- Inputs of the `/trigger` handler: the playback state, the genre list the
artist-details call returns, the total of the probe search, the list of items
the limit-20 search returns, and the random draws consumed by
`random.choice`, `random.randint` and `random.shuffle`. -/
structure KeywordEnv where
  playback : PlaybackState
  artist_genres : List String
  genreRand : Nat
  total_results : Nat
  offsetRand : Nat
  fetched : List Track
  shuffleRand : List Nat

/-- Shallow embedding of the `/trigger` handler (app.py lines 68-137).
Returns the HTTP result and the trace of external calls made after the
playback-state fetch. -/
def trigger (env : KeywordEnv) : HttpResult × List Effect :=
  match env.playback with
  | .noPlayback => (⟨400, errBody "No song is currently playing"⟩, [])
  | .noItem => (⟨400, errBody "No song is currently playing"⟩, [])
  | .playing current_track =>
    match current_track.artists with
    | [] =>
      -- the artists[0] access raises IndexError, caught at the top
      (⟨500, errBody "list index out of range"⟩, [])
    | primary_artist :: _ =>
      let query := deriveQuery env.artist_genres env.genreRand primary_artist.name
      let offset := chooseOffset env.total_results env.offsetRand
      let track_uris := shuffle env.shuffleRand (env.fetched.map Track.uri)
      (⟨200, .obj [
          ("message", .str "Custom shuffled song radio started"),
          ("seed_track", .str current_track.name),
          ("seed_artist", .str primary_artist.name),
          ("search_query", .str query),
          ("track_uris", .arr (track_uris.map Json.str))]⟩,
       [.artistLookup primary_artist.id,
        .search query 1 0,
        .search query 20 offset,
        .startPlayback (track_uris.map Json.str)])

/-- Per-recommendation resolution loop of the LLM variant (app.py lines
197-204): for each element, rec.get of track_name and of artist (with a
default of the empty string) builds a query (raising `AttributeError` if
the element is not a dict), a limit-1 search runs, and the URI of the
first item is
kept when the search returns any item.  Returns the collected URIs (or the
exception message) together with the trace of searches performed. -/
def resolveRecs (searchOne : String → Option String) :
    List Json → Except String (List String) × List Effect
  | [] => (.ok [], [])
  | rec :: rest =>
    match rec with
    | .obj fields =>
      let track_query :=
        pyStr (lookupD fields "track_name" (.str "")) ++ " " ++
          pyStr (lookupD fields "artist" (.str ""))
      match searchOne track_query with
      | some uri =>
        match resolveRecs searchOne rest with
        | (res, tr) => (res.map fun l => uri :: l, .search track_query 1 0 :: tr)
      | none =>
        match resolveRecs searchOne rest with
        | (res, tr) => (res, .search track_query 1 0 :: tr)
    | other => (.error (attrGetError other), [])

/-- Inputs of the `/trigger-openai` handler: the playback state, the raw
(stripped) model response text, the outcome of `json.loads` on it, the
limit-1 search collaborator (query to first-item URI, `none` when the search
returns no items), and the `random.shuffle` randomness. -/
structure OpenaiEnv where
  playback : PlaybackState
  response_message : String
  parsed : Except String Json
  searchOne : String → Option String
  shuffleRand : List Nat

/-- Shallow embedding of the `/trigger-openai` handler (app.py lines
140-221).  Returns the HTTP result and the trace of external calls made
after the playback-state fetch. -/
def trigger_openai (env : OpenaiEnv) : HttpResult × List Effect :=
  match env.playback with
  | .noPlayback => (⟨400, errBody "No song is currently playing"⟩, [])
  | .noItem => (⟨400, errBody "No song is currently playing"⟩, [])
  | .playing current_track =>
    match current_track.artists with
    | [] => (⟨500, errBody "list index out of range"⟩, [])
    | _primary_artist :: _ =>
      match env.parsed with
      | .error parse_error =>
        (⟨500, .obj [
            ("error", .str "Failed to parse OpenAI response as JSON"),
            ("openai_response", .str env.response_message),
            ("parse_error", .str parse_error)]⟩,
         [.openaiCall])
      | .ok recommendations =>
        match recommendations with
        | .arr recs =>
          match resolveRecs env.searchOne recs with
          | (.error msg, tr) => (⟨500, errBody msg⟩, .openaiCall :: tr)
          | (.ok track_uris, tr) =>
            if track_uris.isEmpty then
              (⟨500, errBody "No tracks found from OpenAI recommendations"⟩,
               .openaiCall :: tr)
            else
              let shuffled := shuffle env.shuffleRand track_uris
              (⟨200, .obj [
                  ("message", .str "Custom radio generated using OpenAI recommendations"),
                  ("openai_recommendations", .arr recs),
                  ("track_uris", .arr (shuffled.map Json.str))]⟩,
               .openaiCall :: tr ++ [.startPlayback (shuffled.map Json.str)])
        | _ => (⟨500, errBody "OpenAI response JSON is not a list"⟩, [.openaiCall])

/-- Href-collection loop of the ReccoBeats variant (app.py lines 271-274):
for each recommendation, rec.get of href (defaulting to the empty
string) is appended (raising
`AttributeError` if the element is not a dict); nothing is dropped. -/
def extractHrefs : List Json → Except String (List Json)
  | [] => .ok []
  | rec :: rest =>
    match rec with
    | .obj fields => (extractHrefs rest).map fun l => lookupD fields "href" (.str "") :: l
    | other => .error (attrGetError other)

/-- Inputs of the `/trigger-reccobeats` handler: the playback state, the
status code and text of the ReccoBeats HTTP response, the outcome of
`response.json()`, and the `random.shuffle` randomness. -/
structure ReccoEnv where
  playback : PlaybackState
  response_status : Nat
  response_text : String
  response_json : Except String Json
  shuffleRand : List Nat

/-- Shallow embedding of the `/trigger-reccobeats` handler (app.py lines
224-291).  Returns the HTTP result and the trace of external calls made
after the playback-state fetch. -/
def trigger_reccobeats (env : ReccoEnv) : HttpResult × List Effect :=
  match env.playback with
  | .noPlayback => (⟨400, errBody "No song is currently playing"⟩, [])
  | .noItem => (⟨400, errBody "No song is currently playing"⟩, [])
  | .playing current_track =>
    match current_track.artists with
    | [] => (⟨500, errBody "list index out of range"⟩, [])
    | _primary_artist :: _ =>
      if env.response_status ≠ 200 then
        (⟨500, .obj [
            ("error", .str ("ReccoBeats API error: " ++ toString env.response_status)),
            ("response_text", .str env.response_text)]⟩,
         [.reccoCall current_track.id])
      else
        match env.response_json with
        | .error e =>
          -- response.json() raised; caught by the top-level handler
          (⟨500, errBody e⟩, [.reccoCall current_track.id])
        | .ok json_response =>
          match json_response with
          | .obj fields =>
            match lookupD fields "content" (.arr []) with
            | .arr recs =>
              match extractHrefs recs with
              | .error msg => (⟨500, errBody msg⟩, [.reccoCall current_track.id])
              | .ok track_uris =>
                if track_uris.isEmpty then
                  (⟨500, errBody "No tracks found from ReccoBeats recommendations"⟩,
                   [.reccoCall current_track.id])
                else
                  let shuffled := shuffle env.shuffleRand track_uris
                  (⟨200, .obj [
                      ("message", .str "Custom radio generated using ReccoBeats recommendations"),
                      ("reccobeats_recommendations", .arr recs),
                      ("track_uris", .arr shuffled)]⟩,
                   [.reccoCall current_track.id, .startPlayback shuffled])
            | _ =>
              (⟨500, errBody "ReccoBeats response JSON is not a list"⟩,
               [.reccoCall current_track.id])
          | other =>
            -- json_response.get on a non-dict raises AttributeError
            (⟨500, errBody (attrGetError other)⟩, [.reccoCall current_track.id])

/-- A sample artist used in the concrete scenarios below. -/
def artistA : Artist := ⟨"artist1", "Artist One"⟩

/-- A sample currently-playing track. -/
def trackA : Track := ⟨"track1", "Song One", "spotify:track:seed", [artistA]⟩

/-- Two sample search-result tracks. -/
def fetchedTracks : List Track :=
  [⟨"t1", "Song A", "spotify:track:a", [artistA]⟩,
   ⟨"t2", "Song B", "spotify:track:b", [artistA]⟩]

/-- Keyword-variant scenario with no active playback. -/
def kwEnvNoPlay : KeywordEnv := ⟨.noPlayback, [], 0, 0, 0, [], []⟩

/-- LLM-variant scenario with no active playback. -/
def openaiEnvNoPlay : OpenaiEnv := ⟨.noPlayback, "", .ok .null, fun _ => none, []⟩

/-- ReccoBeats-variant scenario with no active playback. -/
def reccoEnvNoPlay : ReccoEnv := ⟨.noPlayback, 200, "", .ok .null, []⟩

/-- Keyword-variant scenario where the search returns zero tracks (the artist
also has no genre tags). -/
def kwEnvEmpty : KeywordEnv := ⟨.playing trackA, [], 0, 0, 0, [], []⟩

/-- Keyword-variant scenario on the success path: two genres, 100 total
results, two fetched tracks. -/
def kwEnvMain : KeywordEnv :=
  ⟨.playing trackA, ["lo-fi", "chillhop"], 0, 100, 7, fetchedTracks, [1, 0]⟩

/-- A well-formed LLM recommendation object. -/
def recSongX : Json := .obj [("track_name", .str "Song X"), ("artist", .str "Artist X")]

/-- LLM-variant scenario where the one suggestion resolves to a URI. -/
def openaiEnvOk : OpenaiEnv :=
  ⟨.playing trackA, "raw response", .ok (.arr [recSongX]),
   fun _ => some "spotify:track:x", []⟩

/-- LLM-variant scenario where no suggestion resolves to a URI. -/
def openaiEnvNoMatch : OpenaiEnv :=
  ⟨.playing trackA, "raw response", .ok (.arr [recSongX]), fun _ => none, []⟩

/-- LLM-variant scenario where the model response is not valid JSON. -/
def openaiEnvParseErr : OpenaiEnv :=
  ⟨.playing trackA, "not json",
   .error "Expecting value: line 1 column 1 (char 0)", fun _ => none, []⟩

/-- LLM-variant scenario where the model response parses to a non-list. -/
def openaiEnvNotList : OpenaiEnv :=
  ⟨.playing trackA, "raw response", .ok (.obj [("track_name", .str "x")]),
   fun _ => none, []⟩

/-- LLM-variant scenario where the parsed list holds strings, not objects. -/
def openaiEnvStrings : OpenaiEnv :=
  ⟨.playing trackA, "raw response", .ok (.arr [.str "song1", .str "song2"]),
   fun _ => some "u", []⟩

/-- A 21-element list of well-formed LLM recommendation objects. -/
def recs21 : List Json :=
  (List.range 21).map fun i => Json.obj [("track_name", .str (toString i)), ("artist", .str "a")]

/-- LLM-variant scenario where the model returned 21 suggestions, all of
which resolve to the same URI. -/
def openaiEnv21 : OpenaiEnv :=
  ⟨.playing trackA, "raw response", .ok (.arr recs21),
   fun _ => some "spotify:track:x", []⟩

/-- A one-element recommendation list whose item carries no href link. -/
def reccoNoHrefItems : List Json := [.obj [("id", .str "z")]]

/-- ReccoBeats-variant scenario whose one recommendation item has no href. -/
def reccoEnvNoHref : ReccoEnv :=
  ⟨.playing trackA, 200, "body",
   .ok (.obj [("content", .arr reccoNoHrefItems)]), []⟩

/-- ReccoBeats-variant scenario with an empty content list. -/
def reccoEnvEmpty : ReccoEnv :=
  ⟨.playing trackA, 200, "body", .ok (.obj [("content", .arr [])]), []⟩

/-- ReccoBeats-variant scenario whose one recommendation item has an href. -/
def reccoEnvOk : ReccoEnv :=
  ⟨.playing trackA, 200, "body",
   .ok (.obj [("content",
     .arr [.obj [("id", .str "r1"), ("href", .str "https://open.spotify.com/track/1")]])]), []⟩

/-- Picking an element at a valid index and erasing it there is a permutation
of the original list. -/
theorem perm_getD_cons_eraseIdx {α : Type} (d : α) :
    ∀ (xs : List α) (i : Nat), i < xs.length →
      List.Perm (xs.getD i d :: xs.eraseIdx i) xs := by
  intro xs
  induction xs with
  | nil => intro i h; simp at h
  | cons x xs ih =>
    intro i h
    cases i with
    | zero => simp
    | succ n =>
      have hn : n < xs.length := by simpa using h
      have h1 : List.Perm (xs.getD n d :: xs.eraseIdx n) xs := ih n hn
      have h2 : List.Perm (xs.getD n d :: x :: xs.eraseIdx n)
          (x :: xs.getD n d :: xs.eraseIdx n) := List.Perm.swap x (xs.getD n d) _
      simpa using h2.trans (h1.cons x)

/-- The shuffle model always returns a permutation of its input. -/
theorem shuffle_perm {α : Type} :
    ∀ (r : List Nat) (xs : List α), List.Perm (shuffle r xs) xs := by
  intro r
  induction r with
  | nil => intro xs; cases xs <;> rfl
  | cons k r ih =>
    intro xs
    cases xs with
    | nil => exact List.Perm.refl _
    | cons x xs =>
      have hlen : k % (x :: xs).length < (x :: xs).length :=
        Nat.mod_lt _ (by simp)
      have h1 := ih ((x :: xs).eraseIdx (k % (x :: xs).length))
      have h2 := perm_getD_cons_eraseIdx x (x :: xs) (k % (x :: xs).length) hlen
      exact (h1.cons ((x :: xs).getD (k % (x :: xs).length) x)).trans h2

/-- Shuffling preserves the length of the list. -/
theorem shuffle_length {α : Type} (r : List Nat) (xs : List α) :
    (shuffle r xs).length = xs.length :=
  (shuffle_perm r xs).length_eq

/-- An element read with `getD` at a valid index is a member of the list. -/
theorem getD_mem {α : Type} :
    ∀ (xs : List α) (i : Nat) (d : α), i < xs.length → xs.getD i d ∈ xs := by
  intro xs
  induction xs with
  | nil => intro i d h; simp at h
  | cons x xs ih =>
    intro i d h
    cases i with
    | zero => simp
    | succ n =>
      have hn : n < xs.length := by simpa using h
      exact List.mem_cons_of_mem x (ih n d hn)

/-- Unfolding of the resolution loop on a dict element: one search effect is
recorded and the URI is prepended exactly when the search finds an item. -/
theorem resolveRecs_cons_obj (s : String → Option String)
    (fields : List (String × Json)) (rest : List Json) :
    resolveRecs s (.obj fields :: rest) =
      ((match s (pyStr (lookupD fields "track_name" (.str "")) ++ " " ++
            pyStr (lookupD fields "artist" (.str ""))) with
        | some uri => (resolveRecs s rest).1.map fun l => uri :: l
        | none => (resolveRecs s rest).1),
       .search (pyStr (lookupD fields "track_name" (.str "")) ++ " " ++
            pyStr (lookupD fields "artist" (.str ""))) 1 0 ::
         (resolveRecs s rest).2) := by
  rcases hp : resolveRecs s rest with ⟨res, tr⟩
  cases hq : s (pyStr (lookupD fields "track_name" (.str "")) ++ " " ++
      pyStr (lookupD fields "artist" (.str ""))) <;>
    simp [resolveRecs, hq, hp]

/-- No effect recorded by the resolution loop is a playback start. -/
theorem resolveRecs_no_start (s : String → Option String) :
    ∀ recs, ∀ e ∈ (resolveRecs s recs).2, isStart e = false := by
  intro recs
  induction recs with
  | nil => intro e he; simp [resolveRecs] at he
  | cons rec rest ih =>
    intro e he
    cases rec with
    | obj fields =>
      rw [resolveRecs_cons_obj] at he
      rcases List.mem_cons.mp he with h | h
      · subst h; rfl
      · exact ih e h
    | null => simp [resolveRecs] at he
    | bool b => simp [resolveRecs] at he
    | num n => simp [resolveRecs] at he
    | str a => simp [resolveRecs] at he
    | arr l => simp [resolveRecs] at he

/-- A list of effects none of which is a playback start contains no playback
start. -/
theorem not_start_mem (tr : List Effect)
    (h : ∀ e ∈ tr, isStart e = false) (uris : List Json) :
    Effect.startPlayback uris ∉ tr := by
  intro hm
  have := h _ hm
  simp [isStart] at this

/-- The resolution loop returns at most one URI per recommendation. -/
theorem resolveRecs_ok_length (s : String → Option String) :
    ∀ recs l, (resolveRecs s recs).1 = .ok l → l.length ≤ recs.length := by
  intro recs
  induction recs with
  | nil =>
    intro l h
    simp [resolveRecs] at h
    simp [← h]
  | cons rec rest ih =>
    intro l h
    cases rec with
    | obj fields =>
      rw [resolveRecs_cons_obj] at h
      simp only at h
      cases hq : s (pyStr (lookupD fields "track_name" (.str "")) ++ " " ++
          pyStr (lookupD fields "artist" (.str ""))) with
      | none =>
        rw [hq] at h
        exact Nat.le_succ_of_le (ih l h)
      | some uri =>
        rw [hq] at h
        rcases hp : (resolveRecs s rest).1 with e | l0
        · rw [hp] at h; simp [Except.map] at h
        · rw [hp] at h
          simp [Except.map] at h
          subst h
          simpa using Nat.succ_le_succ (ih l0 hp)
    | null => simp [resolveRecs] at h
    | bool b => simp [resolveRecs] at h
    | num n => simp [resolveRecs] at h
    | str a => simp [resolveRecs] at h
    | arr l2 => simp [resolveRecs] at h

/-- On a list of dict items the href-collection loop succeeds and returns,
in order, the href of each item (defaulting to the empty string). -/
theorem extractHrefs_obj :
    ∀ recs : List Json, (∀ r ∈ recs, ∃ fs, r = .obj fs) →
      extractHrefs recs = .ok (recs.map fun r => (Json.field r "href").getD (.str "")) := by
  intro recs
  induction recs with
  | nil => intro _; rfl
  | cons rec rest ih =>
    intro h
    rcases h rec (List.mem_cons_self rec rest) with ⟨fs, hfs⟩
    subst hfs
    have hrest := ih fun r hr => h r (List.mem_cons_of_mem _ hr)
    simp [extractHrefs, hrest, Except.map, lookupD, Json.field]

/-- When the href-collection loop succeeds it returns one entry per item. -/
theorem extractHrefs_ok_length :
    ∀ recs l, extractHrefs recs = .ok l → l.length = recs.length := by
  intro recs
  induction recs with
  | nil =>
    intro l h
    simp [extractHrefs] at h
    simp [← h]
  | cons rec rest ih =>
    intro l h
    cases rec with
    | obj fields =>
      simp only [extractHrefs] at h
      rcases hp : extractHrefs rest with e | l0
      · rw [hp] at h; simp [Except.map] at h
      · rw [hp] at h
        simp [Except.map] at h
        subst h
        simp [ih l0 hp]
    | null => simp [extractHrefs] at h
    | bool b => simp [extractHrefs] at h
    | num n => simp [extractHrefs] at h
    | str a => simp [extractHrefs] at h
    | arr l2 => simp [extractHrefs] at h

/-- Shuffling the empty list yields the empty list for every randomness. -/
theorem shuffle_nil {α : Type} : ∀ r : List Nat, shuffle (α := α) r [] = [] := by
  intro r; cases r <;> rfl

/-- Claim C2: for every request in which the playback state has no currently
playing item (no playback object or no `item` field), each of the three
trigger endpoints returns HTTP 400 with the error message "No song is
currently playing" and performs no further search, resolution, or playback
calls (the trace of external calls is empty). -/
theorem C2_no_playback_400 :
    (∀ env : KeywordEnv,
      env.playback = .noPlayback ∨ env.playback = .noItem →
      trigger env = (⟨400, errBody "No song is currently playing"⟩, [])) ∧
    (∀ env : OpenaiEnv,
      env.playback = .noPlayback ∨ env.playback = .noItem →
      trigger_openai env = (⟨400, errBody "No song is currently playing"⟩, [])) ∧
    (∀ env : ReccoEnv,
      env.playback = .noPlayback ∨ env.playback = .noItem →
      trigger_reccobeats env = (⟨400, errBody "No song is currently playing"⟩, [])) := by
  refine ⟨fun env h => ?_, fun env h => ?_, fun env h => ?_⟩ <;>
    rcases h with h | h <;>
      simp [trigger, trigger_openai, trigger_reccobeats, h]

/-- Witness for C2 at concrete no-playback scenarios of all three
endpoints. -/
theorem C2_witness :
    trigger kwEnvNoPlay = (⟨400, errBody "No song is currently playing"⟩, []) ∧
    trigger_openai openaiEnvNoPlay =
      (⟨400, errBody "No song is currently playing"⟩, []) ∧
    trigger_reccobeats reccoEnvNoPlay =
      (⟨400, errBody "No song is currently playing"⟩, []) :=
  ⟨C2_no_playback_400.1 kwEnvNoPlay (Or.inl rfl),
   C2_no_playback_400.2.1 openaiEnvNoPlay (Or.inl rfl),
   C2_no_playback_400.2.2 reccoEnvNoPlay (Or.inl rfl)⟩

/-- Claim C1 counterexample: in the keyword variant, with a playing track and
zero fetched search results, the endpoint returns HTTP 200 (not a 500
"No tracks found" error) and calls playback start with the empty list. -/
theorem C1_counterexample :
    (trigger kwEnvEmpty).1.status = 200 ∧
      Effect.startPlayback [] ∈ (trigger kwEnvEmpty).2 := by
  refine ⟨rfl, ?_⟩
  have h : (trigger kwEnvEmpty).2 =
      [.artistLookup "artist1", .search "Artist One" 1 0,
       .search "Artist One" 20 0, .startPlayback []] := rfl
  rw [h]
  simp

/-- Claim C1 as amended: the LLM and recommendation-API variants report a
distinct 500 "No tracks found ..." error and never call playback start when
zero candidates resolve to URIs; the keyword variant performs no such check
and calls playback start with the empty list, returning HTTP 200. -/
theorem C1_amended_zero_candidates :
    (∀ (env : OpenaiEnv) (t : Track) (recs : List Json),
      env.playback = .playing t → t.artists ≠ [] →
      env.parsed = .ok (.arr recs) →
      (resolveRecs env.searchOne recs).1 = .ok [] →
      (trigger_openai env).1 =
          ⟨500, errBody "No tracks found from OpenAI recommendations"⟩ ∧
        ∀ uris, Effect.startPlayback uris ∉ (trigger_openai env).2) ∧
    (∀ (env : ReccoEnv) (t : Track) (fields : List (String × Json)),
      env.playback = .playing t → t.artists ≠ [] →
      env.response_status = 200 →
      env.response_json = .ok (.obj fields) →
      lookupD fields "content" (.arr []) = .arr [] →
      (trigger_reccobeats env).1 =
          ⟨500, errBody "No tracks found from ReccoBeats recommendations"⟩ ∧
        ∀ uris, Effect.startPlayback uris ∉ (trigger_reccobeats env).2) ∧
    (∀ (env : KeywordEnv) (t : Track),
      env.playback = .playing t → t.artists ≠ [] → env.fetched = [] →
      (trigger env).1.status = 200 ∧
        Effect.startPlayback [] ∈ (trigger env).2) := by
  refine ⟨?_, ?_, ?_⟩
  · intro env t recs hpb hart hparsed hres
    cases hta : t.artists with
    | nil => exact absurd hta hart
    | cons a rest =>
      rcases hp : resolveRecs env.searchOne recs with ⟨res, tr⟩
      rw [hp] at hres
      simp only at hres
      subst hres
      have htr : (resolveRecs env.searchOne recs).2 = tr := by rw [hp]
      constructor
      · simp [trigger_openai, hpb, hta, hparsed, hp]
      · intro uris
        have hgoal : (trigger_openai env).2 = .openaiCall :: tr := by
          simp [trigger_openai, hpb, hta, hparsed, hp]
        rw [hgoal]
        intro hm
        rcases List.mem_cons.mp hm with h | h
        · exact Effect.noConfusion h
        · have := resolveRecs_no_start env.searchOne recs _ (htr ▸ h)
          simp [isStart] at this
  · intro env t fields hpb hart hstat hjson hcontent
    cases hta : t.artists with
    | nil => exact absurd hta hart
    | cons a rest =>
      constructor
      · simp [trigger_reccobeats, hpb, hta, hstat, hjson, hcontent, extractHrefs]
      · intro uris
        have hgoal : (trigger_reccobeats env).2 = [.reccoCall t.id] := by
          simp [trigger_reccobeats, hpb, hta, hstat, hjson, hcontent, extractHrefs]
        rw [hgoal]
        intro hm
        rcases List.mem_cons.mp hm with h | h
        · exact Effect.noConfusion h
        · simp at h
  · intro env t hpb hart hfetched
    cases hta : t.artists with
    | nil => exact absurd hta hart
    | cons a rest =>
      constructor
      · simp [trigger, hpb, hta]
      · have hgoal : (trigger env).2 =
            [.artistLookup a.id,
             .search (deriveQuery env.artist_genres env.genreRand a.name) 1 0,
             .search (deriveQuery env.artist_genres env.genreRand a.name) 20
               (chooseOffset env.total_results env.offsetRand),
             .startPlayback []] := by
          simp [trigger, hpb, hta, hfetched, shuffle_nil]
        rw [hgoal]
        simp

/-- Witness for the amended C1 at concrete scenarios: an LLM run where the
one suggestion finds no match, a ReccoBeats run with an empty content list,
and a keyword run with zero search results. -/
theorem C1_witness :
    ((trigger_openai openaiEnvNoMatch).1 =
        ⟨500, errBody "No tracks found from OpenAI recommendations"⟩ ∧
      Effect.startPlayback [] ∉ (trigger_openai openaiEnvNoMatch).2) ∧
    ((trigger_reccobeats reccoEnvEmpty).1 =
        ⟨500, errBody "No tracks found from ReccoBeats recommendations"⟩ ∧
      Effect.startPlayback [] ∉ (trigger_reccobeats reccoEnvEmpty).2) ∧
    ((trigger kwEnvEmpty).1.status = 200 ∧
      Effect.startPlayback [] ∈ (trigger kwEnvEmpty).2) := by
  refine ⟨⟨?_, ?_⟩, ⟨?_, ?_⟩, ?_⟩
  · exact (C1_amended_zero_candidates.1 openaiEnvNoMatch trackA [recSongX]
      rfl (List.cons_ne_nil artistA []) rfl rfl).1
  · exact (C1_amended_zero_candidates.1 openaiEnvNoMatch trackA [recSongX]
      rfl (List.cons_ne_nil artistA []) rfl rfl).2 []
  · exact (C1_amended_zero_candidates.2.1 reccoEnvEmpty trackA [("content", .arr [])]
      rfl (List.cons_ne_nil artistA []) rfl rfl rfl).1
  · exact (C1_amended_zero_candidates.2.1 reccoEnvEmpty trackA [("content", .arr [])]
      rfl (List.cons_ne_nil artistA []) rfl rfl rfl).2 []
  · exact C1_amended_zero_candidates.2.2 kwEnvEmpty trackA
      rfl (List.cons_ne_nil artistA []) rfl

/-- Claim C3: in the keyword variant the returned track_uris is a
permutation of the URIs of the fetched results, and its length is at most 20
whenever the limit-20 fetch returns at most 20 items (the Spotify limit
contract); moreover the shuffle step always outputs a permutation of its
input list. -/
theorem C3_keyword_permutation :
    (∀ (env : KeywordEnv) (t : Track),
      env.playback = .playing t → t.artists ≠ [] →
      ((trigger env).1.body.field "track_uris" =
          some (.arr ((shuffle env.shuffleRand (env.fetched.map Track.uri)).map Json.str)) ∧
        List.Perm (shuffle env.shuffleRand (env.fetched.map Track.uri))
          (env.fetched.map Track.uri) ∧
        (env.fetched.length ≤ 20 →
          (shuffle env.shuffleRand (env.fetched.map Track.uri)).length ≤ 20))) ∧
    (∀ (r : List Nat) (uris : List String), List.Perm (shuffle r uris) uris) := by
  constructor
  · intro env t hpb hart
    cases hta : t.artists with
    | nil => exact absurd hta hart
    | cons a rest =>
      refine ⟨?_, shuffle_perm _ _, fun h20 => ?_⟩
      · simp [trigger, hpb, hta, Json.field]
        rfl
      · rw [shuffle_length]
        simpa using h20
  · exact fun r uris => shuffle_perm r uris

/-- Witness for C3 at a concrete keyword scenario with two fetched tracks. -/
theorem C3_witness :
    ((trigger kwEnvMain).1.body.field "track_uris" =
        some (.arr ((shuffle [1, 0] (fetchedTracks.map Track.uri)).map Json.str)) ∧
      List.Perm (shuffle [1, 0] (fetchedTracks.map Track.uri))
        (fetchedTracks.map Track.uri) ∧
      (shuffle [1, 0] (fetchedTracks.map Track.uri)).length ≤ 20) ∧
    List.Perm (shuffle [1, 0] ["spotify:track:a", "spotify:track:b"])
      ["spotify:track:a", "spotify:track:b"] := by
  have h := C3_keyword_permutation.1 kwEnvMain trackA rfl (List.cons_ne_nil artistA [])
  exact ⟨⟨h.1, h.2.1, h.2.2 (by decide)⟩,
    C3_keyword_permutation.2 [1, 0] ["spotify:track:a", "spotify:track:b"]⟩

/-- Claim C5: in the keyword variant the search query is one of the primary
genres of the primary artist when the artist has at least one genre tag,
and is exactly the display name of the artist when the genre list is
empty. -/
theorem C5_query_derivation :
    ∀ (env : KeywordEnv) (t : Track) (a : Artist) (rest : List Artist),
      env.playback = .playing t → t.artists = a :: rest →
      ((env.artist_genres ≠ [] →
        ∃ g ∈ env.artist_genres,
          (trigger env).1.body.field "search_query" = some (.str g)) ∧
       (env.artist_genres = [] →
        (trigger env).1.body.field "search_query" = some (.str a.name))) := by
  intro env t a rest hpb hta
  have hq : (trigger env).1.body.field "search_query" =
      some (.str (deriveQuery env.artist_genres env.genreRand a.name)) := by
    simp [trigger, hpb, hta, Json.field]
    rfl
  constructor
  · intro hne
    cases hg : env.artist_genres with
    | nil => exact absurd hg hne
    | cons g gs =>
      refine ⟨(g :: gs).getD (env.genreRand % (g :: gs).length) g, ?_, ?_⟩
      · exact getD_mem _ _ _ (Nat.mod_lt _ (by simp))
      · rw [hq, hg]
        rfl
  · intro hnil
    rw [hq, hnil]
    rfl

/-- Witness for C5: with genres ["lo-fi", "chillhop"] the query is one of
them; with no genres the query is the artist name. -/
theorem C5_witness :
    (∃ g ∈ ["lo-fi", "chillhop"],
      (trigger kwEnvMain).1.body.field "search_query" = some (.str g)) ∧
    (trigger kwEnvEmpty).1.body.field "search_query" = some (.str "Artist One") :=
  ⟨(C5_query_derivation kwEnvMain trackA artistA [] rfl rfl).1 (by decide),
   (C5_query_derivation kwEnvEmpty trackA artistA [] rfl rfl).2 rfl⟩

/-- Claim C6: in the LLM variant a model response that fails JSON parsing
yields a 500 echoing the raw response under "openai_response", and a
response parsing to a non-list yields a 500 "OpenAI response JSON is not a
list"; in both cases the only external call made is the model call itself
(no resolution searches, no playback start). -/
theorem C6_llm_parse_errors :
    ∀ (env : OpenaiEnv) (t : Track),
      env.playback = .playing t → t.artists ≠ [] →
      ((∀ perr, env.parsed = .error perr →
        trigger_openai env =
          (⟨500, .obj [
              ("error", .str "Failed to parse OpenAI response as JSON"),
              ("openai_response", .str env.response_message),
              ("parse_error", .str perr)]⟩, [.openaiCall])) ∧
       (∀ j, env.parsed = .ok j → (∀ l, j ≠ .arr l) →
        trigger_openai env =
          (⟨500, errBody "OpenAI response JSON is not a list"⟩, [.openaiCall]))) := by
  intro env t hpb hart
  cases hta : t.artists with
  | nil => exact absurd hta hart
  | cons a rest =>
    constructor
    · intro perr hperr
      simp [trigger_openai, hpb, hta, hperr]
    · intro j hj hnotarr
      cases j with
      | arr l => exact absurd rfl (hnotarr l)
      | null => simp [trigger_openai, hpb, hta, hj]
      | bool b => simp [trigger_openai, hpb, hta, hj]
      | num n => simp [trigger_openai, hpb, hta, hj]
      | str s2 => simp [trigger_openai, hpb, hta, hj]
      | obj fs => simp [trigger_openai, hpb, hta, hj]

/-- Witness for C6 at concrete parse-failure and non-list scenarios. -/
theorem C6_witness :
    trigger_openai openaiEnvParseErr =
      (⟨500, .obj [
          ("error", .str "Failed to parse OpenAI response as JSON"),
          ("openai_response", .str "not json"),
          ("parse_error", .str "Expecting value: line 1 column 1 (char 0)")]⟩,
       [.openaiCall]) ∧
    trigger_openai openaiEnvNotList =
      (⟨500, errBody "OpenAI response JSON is not a list"⟩, [.openaiCall]) :=
  ⟨(C6_llm_parse_errors openaiEnvParseErr trackA rfl (List.cons_ne_nil artistA [])).1
      "Expecting value: line 1 column 1 (char 0)" rfl,
   (C6_llm_parse_errors openaiEnvNotList trackA rfl (List.cons_ne_nil artistA [])).2
      (.obj [("track_name", .str "x")]) rfl (fun _ h => Json.noConfusion h)⟩

/-- Claim C7: in the keyword variant the random offset of the main fetch
lies in [0, max(0, T - 20)] (Nat subtraction models the max with 0), so for
T at least 20 the fetch window fits (offset + 20 at most T) and for T below
20 the offset is 0; and that offset is the one passed to the limit-20 search
call. -/
theorem C7_offset_window :
    (∀ total_results offsetRand : Nat,
      chooseOffset total_results offsetRand ≤ total_results - 20 ∧
      (20 ≤ total_results →
        chooseOffset total_results offsetRand + 20 ≤ total_results) ∧
      (total_results < 20 → chooseOffset total_results offsetRand = 0)) ∧
    (∀ (env : KeywordEnv) (t : Track) (a : Artist) (rest : List Artist),
      env.playback = .playing t → t.artists = a :: rest →
      (trigger env).2.get? 2 =
        some (.search (deriveQuery env.artist_genres env.genreRand a.name) 20
          (chooseOffset env.total_results env.offsetRand))) := by
  constructor
  · intro T r
    have hb : chooseOffset T r ≤ T - 20 := by
      unfold chooseOffset
      split
      · exact Nat.lt_succ_iff.mp (Nat.mod_lt _ (Nat.succ_pos _))
      · exact Nat.zero_le _
    refine ⟨hb, fun h20 => ?_, fun hlt => ?_⟩
    · have := Nat.add_le_add_right hb 20
      rwa [Nat.sub_add_cancel h20] at this
    · have h0 : T - 20 = 0 := Nat.sub_eq_zero_of_le (Nat.le_of_lt hlt)
      unfold chooseOffset
      simp [h0]
  · intro env t a rest hpb hta
    simp [trigger, hpb, hta]

/-- Witness for C7 at T = 100 (window fits) and T = 5 (offset 0), plus the
trace of a concrete keyword run. -/
theorem C7_witness :
    chooseOffset 100 7 ≤ 80 ∧ chooseOffset 100 7 + 20 ≤ 100 ∧
    chooseOffset 5 3 = 0 ∧
    (trigger kwEnvMain).2.get? 2 =
      some (.search (deriveQuery ["lo-fi", "chillhop"] 0 "Artist One") 20
        (chooseOffset 100 7)) :=
  ⟨(C7_offset_window.1 100 7).1, (C7_offset_window.1 100 7).2.1 (by decide),
   (C7_offset_window.1 5 3).2.2 (by decide),
   C7_offset_window.2 kwEnvMain trackA artistA [] rfl rfl⟩

/-- Claim C4 counterexample: an LLM run whose model response is a valid JSON
list of 21 suggestions, all of which resolve, produces a successful (200)
response whose track_uris has 21 entries: no endpoint truncates to 20. -/
theorem C4_counterexample :
    (trigger_openai openaiEnv21).1.status = 200 ∧
    ((trigger_openai openaiEnv21).1.body.field "track_uris").map Json.arrLen =
      some 21 := by
  constructor <;> rfl

/-- Claim C4 as amended: no endpoint truncates its candidate list, so the
returned track_uris is bounded by 20 exactly when the upstream source
supplies at most 20 candidates (keyword: fetched items; LLM: parsed
recommendation list; ReccoBeats: content list). -/
theorem C4_amended_length_bound :
    (∀ (env : KeywordEnv) (t : Track),
      env.playback = .playing t → t.artists ≠ [] → env.fetched.length ≤ 20 →
      ∃ l, (trigger env).1.body.field "track_uris" = some (.arr l) ∧
        l.length ≤ 20) ∧
    (∀ (env : OpenaiEnv) (t : Track) (recs : List Json),
      env.playback = .playing t → t.artists ≠ [] →
      env.parsed = .ok (.arr recs) → recs.length ≤ 20 →
      (trigger_openai env).1.status = 200 →
      ∃ l, (trigger_openai env).1.body.field "track_uris" = some (.arr l) ∧
        l.length ≤ 20) ∧
    (∀ (env : ReccoEnv) (t : Track) (fields : List (String × Json)) (recs : List Json),
      env.playback = .playing t → t.artists ≠ [] →
      env.response_status = 200 →
      env.response_json = .ok (.obj fields) →
      lookupD fields "content" (.arr []) = .arr recs → recs.length ≤ 20 →
      (trigger_reccobeats env).1.status = 200 →
      ∃ l, (trigger_reccobeats env).1.body.field "track_uris" = some (.arr l) ∧
        l.length ≤ 20) := by
  refine ⟨?_, ?_, ?_⟩
  · intro env t hpb hart h20
    cases hta : t.artists with
    | nil => exact absurd hta hart
    | cons a rest =>
      refine ⟨(shuffle env.shuffleRand (env.fetched.map Track.uri)).map Json.str, ?_, ?_⟩
      · simp [trigger, hpb, hta, Json.field]
        rfl
      · simpa [shuffle_length] using h20
  · intro env t recs hpb hart hparsed h20 hstatus
    cases hta : t.artists with
    | nil => exact absurd hta hart
    | cons a rest =>
      rcases hp : resolveRecs env.searchOne recs with ⟨res, tr⟩
      cases res with
      | error msg => simp [trigger_openai, hpb, hta, hparsed, hp] at hstatus
      | ok track_uris =>
        cases track_uris with
        | nil => simp [trigger_openai, hpb, hta, hparsed, hp] at hstatus
        | cons u us =>
          have hlen : (u :: us).length ≤ recs.length :=
            resolveRecs_ok_length env.searchOne recs (u :: us) (by rw [hp])
          refine ⟨(shuffle env.shuffleRand (u :: us)).map Json.str, ?_, ?_⟩
          · simp [trigger_openai, hpb, hta, hparsed, hp, Json.field]
            rfl
          · simpa [shuffle_length] using le_trans hlen h20
  · intro env t fields recs hpb hart hstat hjson hcontent h20 hstatus
    cases hta : t.artists with
    | nil => exact absurd hta hart
    | cons a rest =>
      cases hh : extractHrefs recs with
      | error msg =>
        simp [trigger_reccobeats, hpb, hta, hstat, hjson, hcontent, hh] at hstatus
      | ok track_uris =>
        cases track_uris with
        | nil =>
          simp [trigger_reccobeats, hpb, hta, hstat, hjson, hcontent, hh] at hstatus
        | cons u us =>
          have hlen : (u :: us).length = recs.length :=
            extractHrefs_ok_length recs (u :: us) hh
          refine ⟨shuffle env.shuffleRand (u :: us), ?_, ?_⟩
          · simp [trigger_reccobeats, hpb, hta, hstat, hjson, hcontent, hh, Json.field]
            rfl
          · rw [shuffle_length, hlen]
            exact h20

/-- Witness for the amended C4 at concrete success scenarios of all three
endpoints (2, 1 and 1 upstream candidates respectively). -/
theorem C4_witness :
    (∃ l, (trigger kwEnvMain).1.body.field "track_uris" = some (.arr l) ∧
      l.length ≤ 20) ∧
    (∃ l, (trigger_openai openaiEnvOk).1.body.field "track_uris" = some (.arr l) ∧
      l.length ≤ 20) ∧
    (∃ l, (trigger_reccobeats reccoEnvOk).1.body.field "track_uris" = some (.arr l) ∧
      l.length ≤ 20) :=
  ⟨C4_amended_length_bound.1 kwEnvMain trackA rfl (List.cons_ne_nil artistA [])
      (by decide),
   C4_amended_length_bound.2.1 openaiEnvOk trackA [recSongX] rfl
      (List.cons_ne_nil artistA []) rfl (by decide) rfl,
   C4_amended_length_bound.2.2 reccoEnvOk trackA
      [("content", .arr [.obj [("id", .str "r1"),
        ("href", .str "https://open.spotify.com/track/1")]])]
      [.obj [("id", .str "r1"), ("href", .str "https://open.spotify.com/track/1")]]
      rfl (List.cons_ne_nil artistA []) rfl rfl rfl (by decide) rfl⟩

/-- Claim C8: whenever any of the three endpoints produces a successful
(HTTP 200) response, its trace contains exactly one playback-start call, and
the URI list passed to it equals, element for element, the track_uris list
of the response body. -/
theorem C8_playback_matches_response :
    (∀ env : KeywordEnv, (trigger env).1.status = 200 →
      ∃ uris, (trigger env).2.filter isStart = [.startPlayback uris] ∧
        (trigger env).1.body.field "track_uris" = some (.arr uris)) ∧
    (∀ env : OpenaiEnv, (trigger_openai env).1.status = 200 →
      ∃ uris, (trigger_openai env).2.filter isStart = [.startPlayback uris] ∧
        (trigger_openai env).1.body.field "track_uris" = some (.arr uris)) ∧
    (∀ env : ReccoEnv, (trigger_reccobeats env).1.status = 200 →
      ∃ uris, (trigger_reccobeats env).2.filter isStart = [.startPlayback uris] ∧
        (trigger_reccobeats env).1.body.field "track_uris" = some (.arr uris)) := by
  refine ⟨?_, ?_, ?_⟩
  · intro env hstatus
    cases hpb : env.playback with
    | noPlayback => simp [trigger, hpb] at hstatus
    | noItem => simp [trigger, hpb] at hstatus
    | playing t =>
      cases hta : t.artists with
      | nil => simp [trigger, hpb, hta] at hstatus
      | cons a rest =>
        refine ⟨(shuffle env.shuffleRand (env.fetched.map Track.uri)).map Json.str, ?_, ?_⟩
        · simp [trigger, hpb, hta, List.filter, isStart]
        · simp [trigger, hpb, hta, Json.field]
          rfl
  · intro env hstatus
    cases hpb : env.playback with
    | noPlayback => simp [trigger_openai, hpb] at hstatus
    | noItem => simp [trigger_openai, hpb] at hstatus
    | playing t =>
      cases hta : t.artists with
      | nil => simp [trigger_openai, hpb, hta] at hstatus
      | cons a rest =>
        cases hparsed : env.parsed with
        | error e => simp [trigger_openai, hpb, hta, hparsed] at hstatus
        | ok j =>
          cases j with
          | arr recs =>
            rcases hp : resolveRecs env.searchOne recs with ⟨res, tr⟩
            cases res with
            | error msg => simp [trigger_openai, hpb, hta, hparsed, hp] at hstatus
            | ok track_uris =>
              cases track_uris with
              | nil => simp [trigger_openai, hpb, hta, hparsed, hp] at hstatus
              | cons u us =>
                have hnil : tr.filter isStart = [] := by
                  refine List.filter_eq_nil_iff.mpr fun e he => ?_
                  have : (resolveRecs env.searchOne recs).2 = tr := by rw [hp]
                  simp [resolveRecs_no_start env.searchOne recs e (this ▸ he)]
                refine ⟨(shuffle env.shuffleRand (u :: us)).map Json.str, ?_, ?_⟩
                · have hgoal : (trigger_openai env).2 =
                      .openaiCall :: (tr ++
                        [.startPlayback ((shuffle env.shuffleRand (u :: us)).map Json.str)]) := by
                    simp [trigger_openai, hpb, hta, hparsed, hp]
                  rw [hgoal]
                  simp [List.filter_cons, List.filter_append, isStart, hnil]
                · simp [trigger_openai, hpb, hta, hparsed, hp, Json.field]
                  rfl
          | null => simp [trigger_openai, hpb, hta, hparsed] at hstatus
          | bool b => simp [trigger_openai, hpb, hta, hparsed] at hstatus
          | num n => simp [trigger_openai, hpb, hta, hparsed] at hstatus
          | str s2 => simp [trigger_openai, hpb, hta, hparsed] at hstatus
          | obj fs => simp [trigger_openai, hpb, hta, hparsed] at hstatus
  · intro env hstatus
    cases hpb : env.playback with
    | noPlayback => simp [trigger_reccobeats, hpb] at hstatus
    | noItem => simp [trigger_reccobeats, hpb] at hstatus
    | playing t =>
      cases hta : t.artists with
      | nil => simp [trigger_reccobeats, hpb, hta] at hstatus
      | cons a rest =>
        by_cases hstat : env.response_status = 200
        · cases hjson : env.response_json with
          | error e => simp [trigger_reccobeats, hpb, hta, hstat, hjson] at hstatus
          | ok j =>
            cases j with
            | obj fields =>
              cases hcontent : lookupD fields "content" (.arr []) with
              | arr recs =>
                cases hh : extractHrefs recs with
                | error msg =>
                  simp [trigger_reccobeats, hpb, hta, hstat, hjson, hcontent, hh] at hstatus
                | ok track_uris =>
                  cases track_uris with
                  | nil =>
                    simp [trigger_reccobeats, hpb, hta, hstat, hjson, hcontent, hh] at hstatus
                  | cons u us =>
                    refine ⟨shuffle env.shuffleRand (u :: us), ?_, ?_⟩
                    · simp [trigger_reccobeats, hpb, hta, hstat, hjson, hcontent, hh,
                        List.filter, isStart]
                    · simp [trigger_reccobeats, hpb, hta, hstat, hjson, hcontent, hh,
                        Json.field]
                      rfl
              | null => simp [trigger_reccobeats, hpb, hta, hstat, hjson, hcontent] at hstatus
              | bool b => simp [trigger_reccobeats, hpb, hta, hstat, hjson, hcontent] at hstatus
              | num n => simp [trigger_reccobeats, hpb, hta, hstat, hjson, hcontent] at hstatus
              | str s2 => simp [trigger_reccobeats, hpb, hta, hstat, hjson, hcontent] at hstatus
              | obj fs2 => simp [trigger_reccobeats, hpb, hta, hstat, hjson, hcontent] at hstatus
            | null => simp [trigger_reccobeats, hpb, hta, hstat, hjson] at hstatus
            | bool b => simp [trigger_reccobeats, hpb, hta, hstat, hjson] at hstatus
            | num n => simp [trigger_reccobeats, hpb, hta, hstat, hjson] at hstatus
            | str s2 => simp [trigger_reccobeats, hpb, hta, hstat, hjson] at hstatus
            | arr l => simp [trigger_reccobeats, hpb, hta, hstat, hjson] at hstatus
        · simp [trigger_reccobeats, hpb, hta, hstat] at hstatus

/-- Witness for C8 at a successful keyword run, a successful LLM run, and a
successful ReccoBeats run. -/
theorem C8_witness :
    ((trigger kwEnvMain).1.status = 200 ∧
      ∃ uris, (trigger kwEnvMain).2.filter isStart = [.startPlayback uris] ∧
        (trigger kwEnvMain).1.body.field "track_uris" = some (.arr uris)) ∧
    ((trigger_openai openaiEnvOk).1.status = 200 ∧
      ∃ uris, (trigger_openai openaiEnvOk).2.filter isStart = [.startPlayback uris] ∧
        (trigger_openai openaiEnvOk).1.body.field "track_uris" = some (.arr uris)) ∧
    ((trigger_reccobeats reccoEnvOk).1.status = 200 ∧
      ∃ uris, (trigger_reccobeats reccoEnvOk).2.filter isStart = [.startPlayback uris] ∧
        (trigger_reccobeats reccoEnvOk).1.body.field "track_uris" = some (.arr uris)) :=
  ⟨⟨rfl, C8_playback_matches_response.1 kwEnvMain rfl⟩,
   ⟨rfl, C8_playback_matches_response.2.1 openaiEnvOk rfl⟩,
   ⟨rfl, C8_playback_matches_response.2.2 reccoEnvOk rfl⟩⟩

/-- Claim C9: in the ReccoBeats variant, with a 200 upstream response whose
content is a non-empty list of dict items, the collected URI list has
exactly one entry per item (its href, or the empty string when
absent), link-less items are not dropped, the empty-result check passes, and
playback start is reached with those URIs (empty strings included when no
item has a link). -/
theorem C9_recco_hrefs :
    ∀ (env : ReccoEnv) (t : Track) (fields : List (String × Json)) (recs : List Json),
      env.playback = .playing t → t.artists ≠ [] →
      env.response_status = 200 →
      env.response_json = .ok (.obj fields) →
      lookupD fields "content" (.arr []) = .arr recs →
      (∀ r ∈ recs, ∃ fs, r = .obj fs) →
      recs ≠ [] →
      (extractHrefs recs =
          .ok (recs.map fun r => (Json.field r "href").getD (.str "")) ∧
        (recs.map fun r => (Json.field r "href").getD (.str "")).length =
          recs.length ∧
        (trigger_reccobeats env).1.status = 200 ∧
        Effect.startPlayback
            (shuffle env.shuffleRand
              (recs.map fun r => (Json.field r "href").getD (.str ""))) ∈
          (trigger_reccobeats env).2 ∧
        ((∀ r ∈ recs, Json.field r "href" = none) →
          Effect.startPlayback
              (shuffle env.shuffleRand
                (List.replicate recs.length (Json.str ""))) ∈
            (trigger_reccobeats env).2)) := by
  intro env t fields recs hpb hart hstat hjson hcontent hobj hne
  cases hta : t.artists with
  | nil => exact absurd hta hart
  | cons a rest =>
    have hh := extractHrefs_obj recs hobj
    have hrep : ∀ _ : (∀ r ∈ recs, Json.field r "href" = none),
        (recs.map fun r => (Json.field r "href").getD (.str "")) =
          List.replicate recs.length (Json.str "") := by
      intro hnone
      have h1 : ∀ b ∈ recs.map (fun r => (Json.field r "href").getD (.str "")),
          b = Json.str "" := by
        intro b hb
        rcases List.mem_map.mp hb with ⟨r, hr, hfr⟩
        rw [← hfr, hnone r hr]
        rfl
      have h2 := List.eq_replicate_of_mem h1
      rwa [List.length_map] at h2
    cases hrecs : recs with
    | nil => exact absurd hrecs hne
    | cons r0 rs =>
      subst hrecs
      have hmem : Effect.startPlayback
          (shuffle env.shuffleRand
            ((r0 :: rs).map fun r => (Json.field r "href").getD (.str ""))) ∈
          (trigger_reccobeats env).2 := by
        have hgoal : (trigger_reccobeats env).2 =
            [.reccoCall t.id,
             .startPlayback (shuffle env.shuffleRand
               ((r0 :: rs).map fun r => (Json.field r "href").getD (.str "")))] := by
          simp [trigger_reccobeats, hpb, hta, hstat, hjson, hcontent, hh]
        rw [hgoal]
        simp
      refine ⟨hh, by simp, ?_, hmem, fun hnone => ?_⟩
      · simp [trigger_reccobeats, hpb, hta, hstat, hjson, hcontent, hh]
      · rw [← hrep hnone]
        exact hmem

/-- Witness for C9 at a concrete ReccoBeats run whose single recommendation
item has no href link. -/
theorem C9_witness :
    extractHrefs reccoNoHrefItems =
      .ok (reccoNoHrefItems.map fun r => (Json.field r "href").getD (.str "")) ∧
    (reccoNoHrefItems.map fun r => (Json.field r "href").getD (.str "")).length =
      reccoNoHrefItems.length ∧
    (trigger_reccobeats reccoEnvNoHref).1.status = 200 ∧
    Effect.startPlayback
        (shuffle [] (reccoNoHrefItems.map fun r => (Json.field r "href").getD (.str ""))) ∈
      (trigger_reccobeats reccoEnvNoHref).2 ∧
    ((∀ r ∈ reccoNoHrefItems, Json.field r "href" = none) →
      Effect.startPlayback
          (shuffle [] (List.replicate reccoNoHrefItems.length (Json.str ""))) ∈
        (trigger_reccobeats reccoEnvNoHref).2) :=
  C9_recco_hrefs reccoEnvNoHref trackA [("content", .arr reccoNoHrefItems)]
    reccoNoHrefItems rfl (List.cons_ne_nil artistA []) rfl rfl rfl
    (by intro r hr
        simp only [reccoNoHrefItems, List.mem_singleton] at hr
        exact ⟨[("id", .str "z")], hr⟩)
    (List.cons_ne_nil _ _)

/-- Claim C10: in the LLM variant a valid-JSON model response that is a list
of strings is not validated element-wise: the per-element `.get` raises an
`AttributeError` which the top-level handler reports as HTTP 500 with the
exception message, and the body is not the dedicated parse-error response
(it carries no "openai_response" key). -/
theorem C10_nonobject_elements :
    trigger_openai openaiEnvStrings =
      (⟨500, errBody (attrGetError (.str "song1"))⟩, [.openaiCall]) ∧
    (trigger_openai openaiEnvStrings).1.body.field "openai_response" = none := by
  constructor <;> rfl

end SpotifyRadio
